import Mathlib

/-!
Shallow embedding of `src/synapse/server_notices/server_notices_manager.py`
(`ServerNoticesManager`).

The collaborators (datastore, room-creation handler, event-creation handler)
are modelled as an `Env` of oracle functions returning `Except Err`.  Every
operation returns, besides its result, the ordered list of collaborator calls
it performed (a `List CallRecord`), so that temporal and frame claims can be
stated about the sequence of calls.
-/

/-- `EventTypes.Message` from `synapse.api.constants`. -/
def EventTypes.Message : String := "m.room.message"

/-- `Membership.INVITE` from `synapse.api.constants`. -/
def Membership.INVITE : String := "invite"

/-- `Membership.JOIN` from `synapse.api.constants`. -/
def Membership.JOIN : String := "join"

/-- `RoomCreationPreset.PRIVATE_CHAT` from `synapse.api.constants`. -/
def RoomCreationPreset.PRIVATE_CHAT : String := "private_chat"

/-- The configuration fields read by `ServerNoticesManager` (`hs.config`). -/
structure Config where
  server_notices_mxid : Option String
  server_notices_room_name : String
  server_notices_mxid_display_name : String
deriving DecidableEq

/-- `is_enabled` (line 39): true iff a system notices account id is configured. -/
def is_enabled (cfg : Config) : Bool :=
  cfg.server_notices_mxid.isSome

/-- A row returned by `get_rooms_for_user_where_membership_is`: the code only
reads its `room_id` attribute. -/
structure MembershipRecord where
  room_id : String
deriving DecidableEq

/-- The result of `create_requester(...)` from `synapse.types`: an identity
context wrapping the given user id. -/
structure Requester where
  user : Option String
deriving DecidableEq

/-- `create_requester` from `synapse.types`. -/
def create_requester (user_id : Option String) : Requester :=
  { user := user_id }

/-- The `config` dict passed to `create_room` (lines 94-101). -/
structure RoomCreationConfig where
  preset : String
  name : String
  power_level_content_override : List (String × Int)
  invite : List String
deriving DecidableEq

/-- The `creator_join_profile` dict passed to `create_room` (lines 103-105). -/
structure CreatorJoinProfile where
  displayname : String
deriving DecidableEq

/-- The full argument tuple of a `create_room` call (lines 92-106). -/
structure CreateRoomArgs where
  requester : Requester
  config : RoomCreationConfig
  ratelimit : Bool
  creator_join_profile : CreatorJoinProfile
deriving DecidableEq

/-- The `info` dict returned by `create_room`; the code reads `info['room_id']`
(line 107). -/
structure CreateRoomInfo where
  room_id : String
deriving DecidableEq

/-- The event dict passed to `create_and_send_nonmember_event` (lines 52-57). -/
structure EventDict where
  type : String
  room_id : String
  sender : Option String
  content : String
deriving DecidableEq

/-- Errors: `Err.notEnabled` models the `Exception("Server notices not enabled")`
raised at line 74 (the error the spec names `NotEnabledError`); `Err.collab`
models an arbitrary failure raised by a collaborator and propagated unchanged. -/
inductive Err where
  | notEnabled : Err
  | collab (msg : String) : Err
deriving DecidableEq

/-- One collaborator invocation, with its arguments. -/
inductive CallRecord where
  | getRoomsForUser (user_id : String) (membership : List String) : CallRecord
  | getUsersInRoom (room_id : String) : CallRecord
  | createRoom (args : CreateRoomArgs) : CallRecord
  | createAndSendEvent (requester : Requester) (event : EventDict)
      (ratelimit : Bool) : CallRecord
deriving DecidableEq

/-- The collaborators consumed by `ServerNoticesManager`, as oracle functions:
the datastore (`self._store`), the room-creation handler and the
event-creation handler. -/
structure Env where
  get_rooms_for_user_where_membership_is :
    String → List String → Except Err (List MembershipRecord)
  get_users_in_room : String → Except Err (List String)
  create_room : CreateRoomArgs → Except Err CreateRoomInfo
  create_and_send_nonmember_event :
    Requester → EventDict → Bool → Except Err Unit

/-- True exactly on room-creation call records. -/
def isCreateRoomCall : CallRecord → Bool
  | CallRecord.createRoom _ => true
  | _ => false

/-- True exactly on event-submission call records. -/
def isSendEventCall : CallRecord → Bool
  | CallRecord.createAndSendEvent _ _ _ => true
  | _ => false

/-- The argument tuple the resolver passes to `create_room` (lines 92-106):
preset `private_chat`, the configured room name, a power-level override with
`users_default = -10`, an invite list holding only the target user, rate
limiting off, and a creator join profile with the configured display name. -/
def notice_room_create_args (cfg : Config) (system_mxid user_id : String) :
    CreateRoomArgs :=
  { requester := create_requester (some system_mxid)
    config :=
      { preset := RoomCreationPreset.PRIVATE_CHAT
        name := cfg.server_notices_room_name
        power_level_content_override := [("users_default", -10)]
        invite := [user_id] }
    ratelimit := false
    creator_join_profile :=
      { displayname := cfg.server_notices_mxid_display_name } }

/-- The `for room in rooms:` loop of `get_notice_room_for_user` (lines 80-86):
fetch each room member set in order and stop at the first room holding the
system account.  Returns the call trace and either the propagated collaborator
failure, `some` found room id, or `none` when the whole list is exhausted. -/
def find_shared_room (env : Env) (system_mxid : String) :
    List MembershipRecord → List CallRecord × Except Err (Option String)
  | [] => ([], Except.ok none)
  | room :: rest =>
    match env.get_users_in_room room.room_id with
    | Except.error e => ([CallRecord.getUsersInRoom room.room_id], Except.error e)
    | Except.ok user_ids =>
      if system_mxid ∈ user_ids then
        ([CallRecord.getUsersInRoom room.room_id], Except.ok (some room.room_id))
      else
        (CallRecord.getUsersInRoom room.room_id
            :: (find_shared_room env system_mxid rest).1,
         (find_shared_room env system_mxid rest).2)

/-- The body of `get_notice_room_for_user` (lines 62-110), before the
`@cachedInlineCallbacks()` wrapper: check enablement, query the rooms where
the user holds invite or join membership, search them for one shared with the
system account, and otherwise create a new notice room and return its id. -/
def get_notice_room_for_user_uncached (cfg : Config) (env : Env)
    (user_id : String) : List CallRecord × Except Err String :=
  match cfg.server_notices_mxid with
  | none => ([], Except.error Err.notEnabled)
  | some system_mxid =>
    match env.get_rooms_for_user_where_membership_is user_id
        [Membership.INVITE, Membership.JOIN] with
    | Except.error e =>
      ([CallRecord.getRoomsForUser user_id [Membership.INVITE, Membership.JOIN]],
       Except.error e)
    | Except.ok rooms =>
      let search := find_shared_room env system_mxid rooms
      match search.2 with
      | Except.error e =>
        (CallRecord.getRoomsForUser user_id [Membership.INVITE, Membership.JOIN]
            :: search.1,
         Except.error e)
      | Except.ok (some room_id) =>
        (CallRecord.getRoomsForUser user_id [Membership.INVITE, Membership.JOIN]
            :: search.1,
         Except.ok room_id)
      | Except.ok none =>
        let args := notice_room_create_args cfg system_mxid user_id
        match env.create_room args with
        | Except.error e =>
          (CallRecord.getRoomsForUser user_id [Membership.INVITE, Membership.JOIN]
              :: (search.1 ++ [CallRecord.createRoom args]),
           Except.error e)
        | Except.ok info =>
          (CallRecord.getRoomsForUser user_id [Membership.INVITE, Membership.JOIN]
              :: (search.1 ++ [CallRecord.createRoom args]),
           Except.ok info.room_id)

/-- The per-user memo table of the cache. -/
abbrev Cache := List (String × String)

/-- Modelled from the spec: the `@cachedInlineCallbacks()` decorator applied at
line 61 comes from `synapse.util.caches.descriptors`, which is not included
under `src/`.  Following the spec, resolution is memoized per user id; a hit
returns the cached room id with no collaborator call; a successful miss stores
the resolved room id; a failed resolution is propagated unchanged and leaves
no cache entry, so a later call may retry. -/
def get_notice_room_for_user (cfg : Config) (env : Env) (cache : Cache)
    (user_id : String) : List CallRecord × Except Err String × Cache :=
  match cache.lookup user_id with
  | some room_id => ([], Except.ok room_id, cache)
  | none =>
    let res := get_notice_room_for_user_uncached cfg env user_id
    match res.2 with
    | Except.ok room_id =>
      (res.1, Except.ok room_id, (user_id, room_id) :: cache)
    | Except.error e => (res.1, Except.error e, cache)

/-- `send_notice` (lines 42-59): resolve the notice room for the user, then
submit one message event with sender = the configured system account id and
the caller-supplied content, with rate limiting disabled. -/
def send_notice (cfg : Config) (env : Env) (cache : Cache)
    (user_id event_content : String) :
    List CallRecord × Except Err Unit × Cache :=
  let res := get_notice_room_for_user cfg env cache user_id
  match res.2.1 with
  | Except.error e => (res.1, Except.error e, res.2.2)
  | Except.ok room_id =>
    match env.create_and_send_nonmember_event
        (create_requester cfg.server_notices_mxid)
        { type := EventTypes.Message
          room_id := room_id
          sender := cfg.server_notices_mxid
          content := event_content }
        false with
    | Except.error e =>
      (res.1 ++ [CallRecord.createAndSendEvent
          (create_requester cfg.server_notices_mxid)
          { type := EventTypes.Message
            room_id := room_id
            sender := cfg.server_notices_mxid
            content := event_content }
          false],
       Except.error e, res.2.2)
    | Except.ok _ =>
      (res.1 ++ [CallRecord.createAndSendEvent
          (create_requester cfg.server_notices_mxid)
          { type := EventTypes.Message
            room_id := room_id
            sender := cfg.server_notices_mxid
            content := event_content }
          false],
       Except.ok (), res.2.2)

/-- Modelled from the spec: N concurrent first-time resolutions for the same
user id collapse into exactly one in-flight resolution, whose outcome (the
room id, or the failure) is shared by all N callers; the single-flight table
behaviour is in the `@cachedInlineCallbacks()` decorator, which is not
included under `src/`. -/
def resolve_concurrent (cfg : Config) (env : Env) (cache : Cache) (n : Nat)
    (user_id : String) :
    List CallRecord × List (Except Err String) × Cache :=
  match cache.lookup user_id with
  | some room_id => ([], List.replicate n (Except.ok room_id), cache)
  | none =>
    let res := get_notice_room_for_user_uncached cfg env user_id
    match res.2 with
    | Except.ok room_id =>
      (res.1, List.replicate n (Except.ok room_id), (user_id, room_id) :: cache)
    | Except.error e => (res.1, List.replicate n (Except.error e), cache)

/-! Concrete instances used to exercise the definitions. -/

/-- A configuration with the system notices account configured. -/
def testCfg : Config :=
  { server_notices_mxid := some ("@server:test")
    server_notices_room_name := "Server Notices"
    server_notices_mxid_display_name := "Server Notices" }

/-- A configuration with no system notices account. -/
def disabledCfg : Config :=
  { server_notices_mxid := none
    server_notices_room_name := "Server Notices"
    server_notices_mxid_display_name := "Server Notices" }

/-- An environment where the user has no rooms and creation yields a fresh
room. -/
def envNoRooms : Env :=
  { get_rooms_for_user_where_membership_is := fun _ _ => Except.ok []
    get_users_in_room := fun _ => Except.ok []
    create_room := fun _ => Except.ok { room_id := "!new:test" }
    create_and_send_nonmember_event := fun _ _ _ => Except.ok () }

/-- An environment where the second of three rooms is shared with the system
account. -/
def envShared : Env :=
  { get_rooms_for_user_where_membership_is := fun _ _ =>
      Except.ok [{ room_id := "!a:test" }, { room_id := "!b:test" },
        { room_id := "!c:test" }]
    get_users_in_room := fun room_id =>
      if room_id = "!b:test" then Except.ok [("@server:test"), ("@u:test")]
      else Except.ok [("@u:test")]
    create_room := fun _ => Except.ok { room_id := "!new:test" }
    create_and_send_nonmember_event := fun _ _ _ => Except.ok () }

/-- An environment whose membership store fails. -/
def envStoreDown : Env :=
  { get_rooms_for_user_where_membership_is := fun _ _ =>
      Except.error (Err.collab ("store down"))
    get_users_in_room := fun _ => Except.error (Err.collab ("store down"))
    create_room := fun _ => Except.error (Err.collab ("store down"))
    create_and_send_nonmember_event := fun _ _ _ =>
      Except.error (Err.collab ("store down")) }

/-! Helper lemmas about the room-search loop and the call traces. -/

/-- Every call the search loop performs is a member-set query. -/
lemma find_shared_room_calls (env : Env) (m : String) :
    ∀ rooms : List MembershipRecord,
      ∀ c ∈ (find_shared_room env m rooms).1,
        ∃ rid, c = CallRecord.getUsersInRoom rid := by
  intro rooms
  induction rooms with
  | nil => intro c hc; simp [find_shared_room] at hc
  | cons room rest ih =>
    intro c hc
    simp only [find_shared_room] at hc
    cases henv : env.get_users_in_room room.room_id with
    | error e =>
      rw [henv] at hc
      simp at hc
      exact ⟨room.room_id, hc⟩
    | ok user_ids =>
      rw [henv] at hc
      by_cases hmem : m ∈ user_ids
      · simp [hmem] at hc
        exact ⟨room.room_id, hc⟩
      · simp [hmem] at hc
        rcases hc with hc | hc
        · exact ⟨room.room_id, hc⟩
        · exact ih c hc

/-- The search loop never emits a room-creation call. -/
lemma find_shared_room_no_create (env : Env) (m : String)
    (rooms : List MembershipRecord) :
    (find_shared_room env m rooms).1.countP isCreateRoomCall = 0 := by
  rw [List.countP_eq_zero]
  intro c hc
  rcases find_shared_room_calls env m rooms c hc with ⟨rid, rfl⟩
  simp [isCreateRoomCall]

/-- The search loop never emits an event-submission call. -/
lemma find_shared_room_no_send (env : Env) (m : String)
    (rooms : List MembershipRecord) :
    (find_shared_room env m rooms).1.countP isSendEventCall = 0 := by
  rw [List.countP_eq_zero]
  intro c hc
  rcases find_shared_room_calls env m rooms c hc with ⟨rid, rfl⟩
  simp [isSendEventCall]

/-- When every room membership query succeeds and never lists the system
account, the search visits every room in order and reports no match. -/
lemma find_shared_room_none (env : Env) (m : String)
    (rooms : List MembershipRecord)
    (h : ∀ r ∈ rooms, ∃ us, env.get_users_in_room r.room_id = Except.ok us ∧
      m ∉ us) :
    find_shared_room env m rooms =
      (rooms.map (fun r => CallRecord.getUsersInRoom r.room_id),
       Except.ok none) := by
  induction rooms with
  | nil => simp [find_shared_room]
  | cons room rest ih =>
    rcases h room (by simp) with ⟨us, hus, hnm⟩
    have hrest := ih (fun r hr => h r (by simp [hr]))
    simp only [find_shared_room, hus, hnm, if_neg, hrest, List.map_cons]
    simp [hrest]

/-- Conversely, if the search reports no match then every room membership
query succeeded without listing the system account, and the trace is exactly
one member-set query per room, in order. -/
lemma find_shared_room_none_inv (env : Env) (m : String) :
    ∀ rooms : List MembershipRecord,
      (find_shared_room env m rooms).2 = Except.ok none →
      (∀ r ∈ rooms, ∃ us, env.get_users_in_room r.room_id = Except.ok us ∧
        m ∉ us) ∧
      (find_shared_room env m rooms).1 =
        rooms.map (fun r => CallRecord.getUsersInRoom r.room_id) := by
  intro rooms
  induction rooms with
  | nil => intro _; simp [find_shared_room]
  | cons room rest ih =>
    intro h2
    simp only [find_shared_room] at h2 ⊢
    cases henv : env.get_users_in_room room.room_id with
    | error e => rw [henv] at h2; simp at h2
    | ok user_ids =>
      rw [henv] at h2
      by_cases hmem : m ∈ user_ids
      · simp [hmem] at h2
      · simp only [hmem, if_neg, ite_false] at h2 ⊢
        rcases ih h2 with ⟨hall, htr⟩
        refine ⟨?_, by simp [htr]⟩
        intro r hr
        rcases List.mem_cons.mp hr with rfl | hr
        · exact ⟨user_ids, henv, hmem⟩
        · exact hall r hr

/-- When earlier rooms all succeed without the system account and room `r`
succeeds listing it, the search returns `r`. -/
lemma find_shared_room_found (env : Env) (m : String)
    (pre post : List MembershipRecord) (r : MembershipRecord)
    (hpre : ∀ p ∈ pre, ∃ us, env.get_users_in_room p.room_id = Except.ok us ∧
      m ∉ us)
    (hr : ∃ us, env.get_users_in_room r.room_id = Except.ok us ∧ m ∈ us) :
    (find_shared_room env m (pre ++ r :: post)).2 =
      Except.ok (some r.room_id) := by
  induction pre with
  | nil =>
    rcases hr with ⟨us, hus, hm⟩
    simp [find_shared_room, hus, hm]
  | cons p pre' ih =>
    rcases hpre p (by simp) with ⟨us, hus, hnm⟩
    have := ih (fun q hq => hpre q (by simp [hq]))
    simp [find_shared_room, hus, hnm, this]

/-- A room-creation record never appears in the search-loop trace. -/
lemma find_shared_room_not_create (env : Env) (m : String)
    (rooms : List MembershipRecord) (args : CreateRoomArgs) :
    CallRecord.createRoom args ∉ (find_shared_room env m rooms).1 := by
  intro h
  rcases find_shared_room_calls env m rooms _ h with ⟨rid, hrid⟩
  exact CallRecord.noConfusion hrid

/-- A resolution performs at most one room-creation call. -/
lemma uncached_create_count (cfg : Config) (env : Env) (u : String) :
    (get_notice_room_for_user_uncached cfg env u).1.countP isCreateRoomCall
      ≤ 1 := by
  cases hm : cfg.server_notices_mxid with
  | none => simp [get_notice_room_for_user_uncached, hm]
  | some m =>
    cases hrooms : env.get_rooms_for_user_where_membership_is u
        [Membership.INVITE, Membership.JOIN] with
    | error e =>
      simp [get_notice_room_for_user_uncached, hm, hrooms, isCreateRoomCall]
    | ok rooms =>
      cases hs : (find_shared_room env m rooms).2 with
      | error e =>
        simp [get_notice_room_for_user_uncached, hm, hrooms, hs,
          List.countP_cons, isCreateRoomCall, find_shared_room_no_create]
      | ok found =>
        cases found with
        | some rid =>
          simp [get_notice_room_for_user_uncached, hm, hrooms, hs,
            List.countP_cons, isCreateRoomCall, find_shared_room_no_create]
        | none =>
          cases hc : env.create_room (notice_room_create_args cfg m u) with
          | error e =>
            simp [get_notice_room_for_user_uncached, hm, hrooms, hs, hc,
              List.countP_cons, List.countP_append, isCreateRoomCall,
              find_shared_room_no_create]
          | ok info =>
            simp [get_notice_room_for_user_uncached, hm, hrooms, hs, hc,
              List.countP_cons, List.countP_append, isCreateRoomCall,
              find_shared_room_no_create]

/-- A resolution performs no event-submission call. -/
lemma uncached_send_count (cfg : Config) (env : Env) (u : String) :
    (get_notice_room_for_user_uncached cfg env u).1.countP isSendEventCall
      = 0 := by
  cases hm : cfg.server_notices_mxid with
  | none => simp [get_notice_room_for_user_uncached, hm]
  | some m =>
    cases hrooms : env.get_rooms_for_user_where_membership_is u
        [Membership.INVITE, Membership.JOIN] with
    | error e =>
      simp [get_notice_room_for_user_uncached, hm, hrooms, isSendEventCall]
    | ok rooms =>
      cases hs : (find_shared_room env m rooms).2 with
      | error e =>
        simp [get_notice_room_for_user_uncached, hm, hrooms, hs,
          List.countP_cons, isSendEventCall, find_shared_room_no_send]
      | ok found =>
        cases found with
        | some rid =>
          simp [get_notice_room_for_user_uncached, hm, hrooms, hs,
            List.countP_cons, isSendEventCall, find_shared_room_no_send]
        | none =>
          cases hc : env.create_room (notice_room_create_args cfg m u) with
          | error e =>
            simp [get_notice_room_for_user_uncached, hm, hrooms, hs, hc,
              List.countP_cons, List.countP_append, isSendEventCall,
              find_shared_room_no_send]
          | ok info =>
            simp [get_notice_room_for_user_uncached, hm, hrooms, hs, hc,
              List.countP_cons, List.countP_append, isSendEventCall,
              find_shared_room_no_send]

/-- The cached resolver performs no event-submission call either. -/
lemma cached_send_count (cfg : Config) (env : Env) (cache : Cache)
    (u : String) :
    (get_notice_room_for_user cfg env cache u).1.countP isSendEventCall
      = 0 := by
  cases hl : cache.lookup u with
  | some rid => simp [get_notice_room_for_user, hl]
  | none =>
    cases hr : (get_notice_room_for_user_uncached cfg env u).2 with
    | error e =>
      simp [get_notice_room_for_user, hl, hr, uncached_send_count]
    | ok rid =>
      simp [get_notice_room_for_user, hl, hr, uncached_send_count]

/-- If a resolution ever records a room-creation call, then the system account
is configured, the membership query succeeded, every room in the returned
list was queried and found not to hold the system account, the creation
arguments are exactly the ones of lines 92-106, and the creation call is the
last call of the trace, after one member-set query per room. -/
lemma create_call_analysis (cfg : Config) (env : Env) (u : String)
    (args : CreateRoomArgs)
    (h : CallRecord.createRoom args ∈
      (get_notice_room_for_user_uncached cfg env u).1) :
    ∃ m rooms, cfg.server_notices_mxid = some m ∧
      env.get_rooms_for_user_where_membership_is u
        [Membership.INVITE, Membership.JOIN] = Except.ok rooms ∧
      (∀ r ∈ rooms, ∃ us, env.get_users_in_room r.room_id = Except.ok us ∧
        m ∉ us) ∧
      args = notice_room_create_args cfg m u ∧
      (get_notice_room_for_user_uncached cfg env u).1 =
        CallRecord.getRoomsForUser u [Membership.INVITE, Membership.JOIN]
          :: (rooms.map (fun r => CallRecord.getUsersInRoom r.room_id)
              ++ [CallRecord.createRoom args]) := by
  cases hm : cfg.server_notices_mxid with
  | none => simp [get_notice_room_for_user_uncached, hm] at h
  | some m =>
    cases hrooms : env.get_rooms_for_user_where_membership_is u
        [Membership.INVITE, Membership.JOIN] with
    | error e =>
      simp [get_notice_room_for_user_uncached, hm, hrooms] at h
    | ok rooms =>
      cases hs : (find_shared_room env m rooms).2 with
      | error e =>
        simp [get_notice_room_for_user_uncached, hm, hrooms, hs] at h
        exact absurd h (find_shared_room_not_create env m rooms args)
      | ok found =>
        cases found with
        | some rid =>
          simp [get_notice_room_for_user_uncached, hm, hrooms, hs] at h
          exact absurd h (find_shared_room_not_create env m rooms args)
        | none =>
          rcases find_shared_room_none_inv env m rooms hs with ⟨hall, htr⟩
          have hargs : args = notice_room_create_args cfg m u := by
            cases hc : env.create_room (notice_room_create_args cfg m u) with
            | error e =>
              simp [get_notice_room_for_user_uncached, hm, hrooms, hs, hc]
                at h
              rcases h with h | h
              · exact absurd h (find_shared_room_not_create env m rooms args)
              · exact h
            | ok info =>
              simp [get_notice_room_for_user_uncached, hm, hrooms, hs, hc]
                at h
              rcases h with h | h
              · exact absurd h (find_shared_room_not_create env m rooms args)
              · exact h
          refine ⟨m, rooms, rfl, rfl, hall, hargs, ?_⟩
          cases hc : env.create_room (notice_room_create_args cfg m u) with
          | error e =>
            simp [get_notice_room_for_user_uncached, hm, hrooms, hs, hc, htr,
              hargs]
          | ok info =>
            simp [get_notice_room_for_user_uncached, hm, hrooms, hs, hc, htr,
              hargs]

/-- Claim C1: for every user id, two sequential successful calls to the
resolver return the same room id, and the second call performs no storage
query and no room-creation call (its call trace is empty): it returns the
cached room id. -/
theorem resolver_idempotent (cfg : Config) (env : Env) (cache : Cache)
    (u r : String)
    (h : (get_notice_room_for_user cfg env cache u).2.1 = Except.ok r) :
    get_notice_room_for_user cfg env
        ((get_notice_room_for_user cfg env cache u).2.2) u
      = ([], Except.ok r, (get_notice_room_for_user cfg env cache u).2.2) := by
  cases hl : cache.lookup u with
  | some rid =>
    simp only [get_notice_room_for_user, hl] at h ⊢
    simp at h
    subst h
    simp [get_notice_room_for_user, hl]
  | none =>
    cases hr : (get_notice_room_for_user_uncached cfg env u).2 with
    | error e => simp [get_notice_room_for_user, hl, hr] at h
    | ok rid =>
      simp only [get_notice_room_for_user, hl, hr] at h ⊢
      simp at h
      subst h
      simp [get_notice_room_for_user, List.lookup]

/-- Witness for C1 at a concrete configuration, environment and user. -/
theorem resolver_idempotent_witness :
    get_notice_room_for_user testCfg envNoRooms
        ((get_notice_room_for_user testCfg envNoRooms [] ("@u:test")).2.2)
        ("@u:test")
      = ([], Except.ok ("!new:test"),
         (get_notice_room_for_user testCfg envNoRooms [] ("@u:test")).2.2) :=
  resolver_idempotent testCfg envNoRooms [] ("@u:test") ("!new:test") rfl

/-- Claim C2: when the membership list of a user holds a room whose member
set includes the configured system account, the resolver returns the first
such room id in storage return order and performs no room-creation call. -/
theorem first_shared_room (cfg : Config) (env : Env) (u m : String)
    (pre post : List MembershipRecord) (r : MembershipRecord)
    (hm : cfg.server_notices_mxid = some m)
    (hrooms : env.get_rooms_for_user_where_membership_is u
      [Membership.INVITE, Membership.JOIN] = Except.ok (pre ++ r :: post))
    (hpre : ∀ p ∈ pre, ∃ us, env.get_users_in_room p.room_id = Except.ok us ∧
      m ∉ us)
    (hr : ∃ us, env.get_users_in_room r.room_id = Except.ok us ∧ m ∈ us) :
    (get_notice_room_for_user_uncached cfg env u).2 = Except.ok r.room_id ∧
    (get_notice_room_for_user_uncached cfg env u).1.countP isCreateRoomCall
      = 0 := by
  have hfind := find_shared_room_found env m pre post r hpre hr
  constructor
  · simp [get_notice_room_for_user_uncached, hm, hrooms, hfind]
  · simp [get_notice_room_for_user_uncached, hm, hrooms, hfind,
      List.countP_cons, isCreateRoomCall, find_shared_room_no_create]

/-- Witness for C2: the second of three rooms is the first one shared with
the system account. -/
theorem first_shared_room_witness :
    (get_notice_room_for_user_uncached testCfg envShared ("@u:test")).2
        = Except.ok ("!b:test") ∧
    (get_notice_room_for_user_uncached testCfg envShared ("@u:test")).1.countP
        isCreateRoomCall = 0 :=
  first_shared_room testCfg envShared ("@u:test") ("@server:test")
    [{ room_id := "!a:test" }] [{ room_id := "!c:test" }]
    { room_id := "!b:test" } rfl rfl
    (by
      intro p hp
      simp at hp
      subst hp
      exact ⟨[("@u:test")], rfl, by decide⟩)
    ⟨[("@server:test"), ("@u:test")], rfl, by decide⟩

/-- Claim C3: when no room of the membership list holds the system account,
the resolver performs exactly one room-creation call, whose arguments carry
preset private chat, the configured room name, a power-level override setting
users_default to -10, an invite list holding exactly the target user, and a
creator join profile with the configured display name; the resolver returns
the room id extracted from the creation result. -/
theorem creation_fallback (cfg : Config) (env : Env) (u m : String)
    (rooms : List MembershipRecord) (info : CreateRoomInfo)
    (hm : cfg.server_notices_mxid = some m)
    (hrooms : env.get_rooms_for_user_where_membership_is u
      [Membership.INVITE, Membership.JOIN] = Except.ok rooms)
    (hnone : ∀ r ∈ rooms, ∃ us, env.get_users_in_room r.room_id = Except.ok us
      ∧ m ∉ us)
    (hcreate : env.create_room (notice_room_create_args cfg m u)
      = Except.ok info) :
    (get_notice_room_for_user_uncached cfg env u).1.filter isCreateRoomCall
        = [CallRecord.createRoom (notice_room_create_args cfg m u)] ∧
    (notice_room_create_args cfg m u).config.preset
        = RoomCreationPreset.PRIVATE_CHAT ∧
    (notice_room_create_args cfg m u).config.name
        = cfg.server_notices_room_name ∧
    (notice_room_create_args cfg m u).config.power_level_content_override
        = [(("users_default" : String), (-10 : Int))] ∧
    (notice_room_create_args cfg m u).config.invite = [u] ∧
    (notice_room_create_args cfg m u).creator_join_profile.displayname
        = cfg.server_notices_mxid_display_name ∧
    (get_notice_room_for_user_uncached cfg env u).2 = Except.ok info.room_id
    := by
  have hfind := find_shared_room_none env m rooms hnone
  have hfilter : (rooms.map
      (fun r => CallRecord.getUsersInRoom r.room_id)).filter isCreateRoomCall
      = [] := by
    rw [List.filter_eq_nil_iff]
    intro c hc
    rcases List.mem_map.mp hc with ⟨r, _, rfl⟩
    simp [isCreateRoomCall]
  refine ⟨?_, rfl, rfl, rfl, rfl, rfl, ?_⟩
  · simp [get_notice_room_for_user_uncached, hm, hrooms, hfind, hcreate,
      List.filter_append, hfilter, isCreateRoomCall]
  · simp [get_notice_room_for_user_uncached, hm, hrooms, hfind, hcreate]

/-- Witness for C3: a user with no rooms gets a freshly created notice room. -/
theorem creation_fallback_witness :
    (get_notice_room_for_user_uncached testCfg envNoRooms ("@u:test")).1.filter
        isCreateRoomCall
      = [CallRecord.createRoom
          (notice_room_create_args testCfg ("@server:test") ("@u:test"))] ∧
    (notice_room_create_args testCfg ("@server:test")
        ("@u:test")).config.preset = RoomCreationPreset.PRIVATE_CHAT ∧
    (notice_room_create_args testCfg ("@server:test") ("@u:test")).config.name
        = testCfg.server_notices_room_name ∧
    (notice_room_create_args testCfg ("@server:test")
        ("@u:test")).config.power_level_content_override
        = [(("users_default" : String), (-10 : Int))] ∧
    (notice_room_create_args testCfg ("@server:test")
        ("@u:test")).config.invite = [("@u:test")] ∧
    (notice_room_create_args testCfg ("@server:test")
        ("@u:test")).creator_join_profile.displayname
        = testCfg.server_notices_mxid_display_name ∧
    (get_notice_room_for_user_uncached testCfg envNoRooms ("@u:test")).2
        = Except.ok ("!new:test") :=
  creation_fallback testCfg envNoRooms ("@u:test") ("@server:test") []
    { room_id := "!new:test" } rfl rfl (by intro r hr; cases hr) rfl

/-- Claim C4: when no system notices account id is configured, is_enabled
returns false, and both the resolver and send_notice fail with the
not-enabled error with an empty call trace — the enablement check happens
before any membership-store, room-creation or event-creation call. -/
theorem enablement_gate (cfg : Config) (env : Env) (cache : Cache)
    (u content : String)
    (hdis : cfg.server_notices_mxid = none)
    (hc : cache.lookup u = none) :
    is_enabled cfg = false ∧
    get_notice_room_for_user cfg env cache u
      = ([], Except.error Err.notEnabled, cache) ∧
    send_notice cfg env cache u content
      = ([], Except.error Err.notEnabled, cache) := by
  have huncached : get_notice_room_for_user_uncached cfg env u
      = ([], Except.error Err.notEnabled) := by
    simp [get_notice_room_for_user_uncached, hdis]
  have hres : get_notice_room_for_user cfg env cache u
      = ([], Except.error Err.notEnabled, cache) := by
    simp [get_notice_room_for_user, hc, huncached]
  refine ⟨by simp [is_enabled, hdis], hres, ?_⟩
  simp [send_notice, hres]

/-- Witness for C4 at a disabled configuration. -/
theorem enablement_gate_witness :
    is_enabled disabledCfg = false ∧
    get_notice_room_for_user disabledCfg envNoRooms [] ("@u:test")
      = ([], Except.error Err.notEnabled, []) ∧
    send_notice disabledCfg envNoRooms [] ("@u:test") ("hello")
      = ([], Except.error Err.notEnabled, []) :=
  enablement_gate disabledCfg envNoRooms [] ("@u:test") ("hello") rfl rfl

/-- Claim C5: send_notice first resolves the notice room (the resolution
trace comes first), then submits exactly one event, a message-type draft
whose room is the resolved room id, whose sender is the configured system
account id and whose content is the caller-supplied payload, with rate
limiting disabled. -/
theorem send_notice_sends_one_event (cfg : Config) (env : Env) (cache : Cache)
    (u content : String) (tr : List CallRecord) (room_id : String)
    (c' : Cache)
    (h : get_notice_room_for_user cfg env cache u
      = (tr, Except.ok room_id, c')) :
    (send_notice cfg env cache u content).1 =
      tr ++ [CallRecord.createAndSendEvent
        (create_requester cfg.server_notices_mxid)
        { type := EventTypes.Message
          room_id := room_id
          sender := cfg.server_notices_mxid
          content := content }
        false] ∧
    (send_notice cfg env cache u content).1.countP isSendEventCall = 1 := by
  have hcount : tr.countP isSendEventCall = 0 := by
    have := cached_send_count cfg env cache u
    rw [h] at this
    exact this
  cases hsend : env.create_and_send_nonmember_event
      (create_requester cfg.server_notices_mxid)
      { type := EventTypes.Message
        room_id := room_id
        sender := cfg.server_notices_mxid
        content := content }
      false with
  | error e =>
    constructor
    · simp [send_notice, h, hsend]
    · simp [send_notice, h, hsend, List.countP_append, List.countP_cons,
        hcount, isSendEventCall]
  | ok x =>
    constructor
    · simp [send_notice, h, hsend]
    · simp [send_notice, h, hsend, List.countP_append, List.countP_cons,
        hcount, isSendEventCall]

/-- Witness for C5: sending to an unresolved user first creates the room,
then submits one message event into it. -/
theorem send_notice_sends_one_event_witness :
    (send_notice testCfg envNoRooms [] ("@u:test") ("hello")).1 =
      [CallRecord.getRoomsForUser ("@u:test")
          [Membership.INVITE, Membership.JOIN],
        CallRecord.createRoom
          (notice_room_create_args testCfg ("@server:test") ("@u:test"))]
        ++ [CallRecord.createAndSendEvent
          (create_requester testCfg.server_notices_mxid)
          { type := EventTypes.Message
            room_id := "!new:test"
            sender := testCfg.server_notices_mxid
            content := "hello" }
          false] ∧
    (send_notice testCfg envNoRooms [] ("@u:test") ("hello")).1.countP
        isSendEventCall = 1 :=
  send_notice_sends_one_event testCfg envNoRooms [] ("@u:test") ("hello")
    [CallRecord.getRoomsForUser ("@u:test")
        [Membership.INVITE, Membership.JOIN],
      CallRecord.createRoom
        (notice_room_create_args testCfg ("@server:test") ("@u:test"))]
    ("!new:test") [(("@u:test"), ("!new:test"))] rfl

/-- Claim C6: a room-creation call happens only after the existing-room
search has completed over the entire membership list returned by the store
and found no room holding the system account; in the call trace the creation
call comes last, after the membership query and one member-set query per
room. -/
theorem search_before_creation (cfg : Config) (env : Env) (u : String)
    (args : CreateRoomArgs)
    (h : CallRecord.createRoom args ∈
      (get_notice_room_for_user_uncached cfg env u).1) :
    ∃ m rooms, cfg.server_notices_mxid = some m ∧
      env.get_rooms_for_user_where_membership_is u
        [Membership.INVITE, Membership.JOIN] = Except.ok rooms ∧
      (∀ r ∈ rooms, ∃ us, env.get_users_in_room r.room_id = Except.ok us ∧
        m ∉ us) ∧
      (get_notice_room_for_user_uncached cfg env u).1 =
        CallRecord.getRoomsForUser u [Membership.INVITE, Membership.JOIN]
          :: (rooms.map (fun r => CallRecord.getUsersInRoom r.room_id)
              ++ [CallRecord.createRoom args]) := by
  rcases create_call_analysis cfg env u args h with
    ⟨m, rooms, hm, hrooms, hall, _, htr⟩
  exact ⟨m, rooms, hm, hrooms, hall, htr⟩

/-- Witness for C6 at a concrete environment where creation happens. -/
theorem search_before_creation_witness :
    ∃ m rooms, testCfg.server_notices_mxid = some m ∧
      envNoRooms.get_rooms_for_user_where_membership_is ("@u:test")
        [Membership.INVITE, Membership.JOIN] = Except.ok rooms ∧
      (∀ r ∈ rooms, ∃ us, envNoRooms.get_users_in_room r.room_id
        = Except.ok us ∧ m ∉ us) ∧
      (get_notice_room_for_user_uncached testCfg envNoRooms ("@u:test")).1 =
        CallRecord.getRoomsForUser ("@u:test")
            [Membership.INVITE, Membership.JOIN]
          :: (rooms.map (fun r => CallRecord.getUsersInRoom r.room_id)
              ++ [CallRecord.createRoom
                (notice_room_create_args testCfg ("@server:test")
                  ("@u:test"))]) :=
  search_before_creation testCfg envNoRooms ("@u:test")
    (notice_room_create_args testCfg ("@server:test") ("@u:test"))
    (by simp [get_notice_room_for_user_uncached, testCfg, envNoRooms,
      find_shared_room])

/-- Claim C7: N concurrent resolutions for a user with no prior cache entry
collapse into one underlying resolution: at most one room-creation call is
performed in total, and all N callers receive the same outcome (the same
room id, or the same failure). -/
theorem single_flight (cfg : Config) (env : Env) (cache : Cache) (n : Nat)
    (u : String) (h : cache.lookup u = none) :
    (resolve_concurrent cfg env cache n u).1.countP isCreateRoomCall ≤ 1 ∧
    (resolve_concurrent cfg env cache n u).2.1.length = n ∧
    ∀ r₁ ∈ (resolve_concurrent cfg env cache n u).2.1,
      ∀ r₂ ∈ (resolve_concurrent cfg env cache n u).2.1, r₁ = r₂ := by
  cases hr : (get_notice_room_for_user_uncached cfg env u).2 with
  | ok rid =>
    refine ⟨?_, ?_, ?_⟩
    · simp [resolve_concurrent, h, hr, uncached_create_count]
    · simp [resolve_concurrent, h, hr]
    · intro r₁ h₁ r₂ h₂
      simp only [resolve_concurrent, h, hr] at h₁ h₂
      rw [List.eq_of_mem_replicate h₁, List.eq_of_mem_replicate h₂]
  | error e =>
    refine ⟨?_, ?_, ?_⟩
    · simp [resolve_concurrent, h, hr, uncached_create_count]
    · simp [resolve_concurrent, h, hr]
    · intro r₁ h₁ r₂ h₂
      simp only [resolve_concurrent, h, hr] at h₁ h₂
      rw [List.eq_of_mem_replicate h₁, List.eq_of_mem_replicate h₂]

/-- Witness for C7 with three concurrent callers. -/
theorem single_flight_witness :
    (resolve_concurrent testCfg envNoRooms [] 3 ("@u:test")).1.countP
        isCreateRoomCall ≤ 1 ∧
    (resolve_concurrent testCfg envNoRooms [] 3 ("@u:test")).2.1.length = 3 ∧
    ∀ r₁ ∈ (resolve_concurrent testCfg envNoRooms [] 3 ("@u:test")).2.1,
      ∀ r₂ ∈ (resolve_concurrent testCfg envNoRooms [] 3 ("@u:test")).2.1,
        r₁ = r₂ :=
  single_flight testCfg envNoRooms [] 3 ("@u:test") rfl

/-- Claim C8: when a resolution fails, the failure of the underlying
computation is propagated unchanged, the cache is left exactly as it was (no
entry remains for the user), and a subsequent call for the same user runs
the full resolution again instead of receiving a cached failure. -/
theorem resolution_failure_clean (cfg : Config) (env : Env) (cache : Cache)
    (u : String) (tr : List CallRecord) (e : Err) (c' : Cache)
    (h : get_notice_room_for_user cfg env cache u
      = (tr, Except.error e, c')) :
    c' = cache ∧
    get_notice_room_for_user_uncached cfg env u = (tr, Except.error e) ∧
    get_notice_room_for_user cfg env c' u = (tr, Except.error e, cache) := by
  cases hl : cache.lookup u with
  | some rid => simp [get_notice_room_for_user, hl] at h
  | none =>
    cases hr : (get_notice_room_for_user_uncached cfg env u).2 with
    | ok rid => simp [get_notice_room_for_user, hl, hr] at h
    | error e₀ =>
      have hform : get_notice_room_for_user cfg env cache u
          = ((get_notice_room_for_user_uncached cfg env u).1,
             Except.error e₀, cache) := by
        simp [get_notice_room_for_user, hl, hr]
      rw [hform] at h
      rw [Prod.ext_iff] at h
      obtain ⟨h1, h23⟩ := h
      rw [Prod.ext_iff] at h23
      obtain ⟨h2, h3⟩ := h23
      simp only at h1 h2 h3
      have he : e₀ = e := by
        injection h2
      subst he
      refine ⟨h3.symm, ?_, ?_⟩
      · exact Prod.ext h1 hr
      · rw [← h3, hform, h1]

/-- Witness for C8: a failing membership store leaves the cache empty and
the failure is propagated. -/
theorem resolution_failure_clean_witness :
    ([] : Cache) = ([] : Cache) ∧
    get_notice_room_for_user_uncached testCfg envStoreDown ("@u:test")
      = ([CallRecord.getRoomsForUser ("@u:test")
            [Membership.INVITE, Membership.JOIN]],
         Except.error (Err.collab ("store down"))) ∧
    get_notice_room_for_user testCfg envStoreDown [] ("@u:test")
      = ([CallRecord.getRoomsForUser ("@u:test")
            [Membership.INVITE, Membership.JOIN]],
         Except.error (Err.collab ("store down")), []) :=
  resolution_failure_clean testCfg envStoreDown [] ("@u:test")
    [CallRecord.getRoomsForUser ("@u:test")
      [Membership.INVITE, Membership.JOIN]]
    (Err.collab ("store down")) [] rfl

/-- Claim C9: every room-creation call the resolver performs carries the
rate-limit flag set to false, not only the event submission. -/
theorem creation_ratelimit_disabled (cfg : Config) (env : Env) (u : String)
    (args : CreateRoomArgs)
    (h : CallRecord.createRoom args ∈
      (get_notice_room_for_user_uncached cfg env u).1) :
    args.ratelimit = false := by
  rcases create_call_analysis cfg env u args h with
    ⟨m, rooms, _, _, _, hargs, _⟩
  rw [hargs]
  rfl

/-- Witness for C9 at a concrete creation. -/
theorem creation_ratelimit_disabled_witness :
    (notice_room_create_args testCfg ("@server:test")
      ("@u:test")).ratelimit = false :=
  creation_ratelimit_disabled testCfg envNoRooms ("@u:test")
    (notice_room_create_args testCfg ("@server:test") ("@u:test"))
    (by simp [get_notice_room_for_user_uncached, testCfg, envNoRooms,
      find_shared_room])

/-- Claim C10: a resolution for one user never creates, modifies or removes
the cache entry of a different user. -/
theorem resolution_frame (cfg : Config) (env : Env) (cache : Cache)
    (u v : String) (h : u ≠ v) :
    ((get_notice_room_for_user cfg env cache u).2.2).lookup v
      = cache.lookup v := by
  cases hl : cache.lookup u with
  | some rid => simp [get_notice_room_for_user, hl]
  | none =>
    cases hr : (get_notice_room_for_user_uncached cfg env u).2 with
    | error e => simp [get_notice_room_for_user, hl, hr]
    | ok rid =>
      have hbeq : (v == u) = false := beq_eq_false_iff_ne.mpr (Ne.symm h)
      simp [get_notice_room_for_user, hl, hr, List.lookup, hbeq]

/-- Witness for C10: resolving one user leaves another user's entry alone. -/
theorem resolution_frame_witness :
    ((get_notice_room_for_user testCfg envNoRooms
        [(("@v:test"), ("!r2:test"))] ("@u:test")).2.2).lookup ("@v:test")
      = ([(("@v:test"), ("!r2:test"))] : Cache).lookup ("@v:test") :=
  resolution_frame testCfg envNoRooms [(("@v:test"), ("!r2:test"))]
    ("@u:test") ("@v:test") (by decide)
